import Mathlib

/-!
Shallow embedding of the detection / tracking core of `detect_and_track`
(`DetectionUtils.cpp`, `detect_locate_and_in_image_tracking_node.cpp`).
`float` arithmetic is modelled exactly over `ℚ`.
-/

/-- 2D bounding box, from the `BoundingBox` data model: center `(x_, y_)`,
extent `(w_, h_)`, derived corners, confidence, class id and `valid_` flag. -/
structure BoundingBox where
  x_ : ℚ
  y_ : ℚ
  w_ : ℚ
  h_ : ℚ
  x_min_ : ℚ
  x_max_ : ℚ
  y_min_ : ℚ
  y_max_ : ℚ
  confidence_ : ℚ
  class_id_ : Nat
  valid_ : Bool
deriving DecidableEq, Repr

instance : Inhabited BoundingBox :=
  ⟨⟨0, 0, 0, 0, 0, 0, 0, 0, 0, 0, false⟩⟩

namespace Detect

/-- The letterbox parameters remembered by `Detect` after `padImage`:
scale `r_` and the paddings, used by `adjustBoundingBoxes`. -/
structure AdjustParams where
  r_ : ℚ
  padding_rows_ : ℚ
  padding_cols_ : ℚ
deriving DecidableEq, Repr

/-- Per-box body of `Detect::adjustBoundingBoxes` (DetectionUtils.cpp:243-265):
an invalid box is skipped (`continue`); otherwise the center is shifted by the
paddings and divided by `r_`, the corners are recomputed from the new center
and the OLD extent divided by `2*r_`, and only then `w_`, `h_` are divided
by `r_` (matching the statement order of the source). -/
def adjustBox (p : AdjustParams) (b : BoundingBox) : BoundingBox :=
  if !b.valid_ then b
  else
    let x1 := (b.x_ - p.padding_cols_) / p.r_
    let y1 := (b.y_ - p.padding_rows_) / p.r_
    { b with
      x_ := x1
      y_ := y1
      x_min_ := x1 - b.w_ / (2 * p.r_)
      x_max_ := x1 + b.w_ / (2 * p.r_)
      y_min_ := y1 - b.h_ / (2 * p.r_)
      y_max_ := y1 + b.h_ / (2 * p.r_)
      h_ := b.h_ / p.r_
      w_ := b.w_ / p.r_ }

/-- `Detect::adjustBoundingBoxes`: the per-box adjustment applied to every
box of every class list. -/
def adjustBoundingBoxes (p : AdjustParams) (bboxes : List (List BoundingBox)) :
    List (List BoundingBox) :=
  bboxes.map (fun cls => cls.map (adjustBox p))

/-- Result of `Detect::padImage` (DetectionUtils.cpp:229-241):
`r_ = image_size / max(rows, cols)`, the resized content has extent
`rows*r_ × cols*r_`, and the paddings are half the leftover.  `cv::resize`'s
integer rounding and the integer division by 2 are modelled exactly over `ℚ`. -/
structure PadResult where
  r_ : ℚ
  tmp_rows : ℚ
  tmp_cols : ℚ
  padding_rows_ : ℚ
  padding_cols_ : ℚ
deriving DecidableEq, Repr

/-- `Detect::padImage` on an image of dimensions `irows × icols`, with the
configured square side `image_size`. -/
def padImage (image_size irows icols : ℚ) : PadResult :=
  let r := image_size / max irows icols
  let trows := irows * r
  let tcols := icols * r
  { r_ := r
    tmp_rows := trows
    tmp_cols := tcols
    padding_rows_ := (image_size - trows) / 2
    padding_cols_ := (image_size - tcols) / 2 }

/-- The adjustment parameters `Detect` keeps after `padImage`: the members
`r_`, `padding_rows_`, `padding_cols_` stored at DetectionUtils.cpp:230-239
and read by `adjustBoundingBoxes`. -/
def padAdjust (image_size irows icols : ℚ) : AdjustParams :=
  let pr := padImage image_size irows icols
  ⟨pr.r_, pr.padding_rows_, pr.padding_cols_⟩

/-- The index pairs `(i, j)` read by the loops of
`Detect::generateDetectionImage` (DetectionUtils.cpp:267-278) on per-class
lists of the given sizes: the source's inner loop runs
`j < bboxes[i].size()+1`, so `j` ranges over `0 .. sizes[i]` inclusive. -/
def generateDetectionImageReads (sizes : List Nat) : List (Nat × Nat) :=
  (List.range sizes.length).flatMap
    (fun i => (List.range (sizes[i]! + 1)).map (fun j => (i, j)))

end Detect

namespace ROSDetector

/-- Parameters used by `ROSDetector::adjustBoundingBoxes` in
`detect_locate_and_in_image_tracking_node.cpp:195-209`: the paddings and the
image rectangle used for clamping. -/
structure NodeAdjustParams where
  padding_rows_ : ℚ
  padding_cols_ : ℚ
  image_rows_ : ℚ
  image_cols_ : ℚ
deriving DecidableEq, Repr

/-- Per-box body of `ROSDetector::adjustBoundingBoxes`
(detect_locate_and_in_image_tracking_node.cpp:195-209): invalid boxes are
skipped; otherwise the center is shifted by the paddings (no division by a
scale) and the corners are recomputed as center ± extent/2, clamped to the
image rectangle.  `w_` and `h_` are not modified. -/
def adjustBox (p : NodeAdjustParams) (b : BoundingBox) : BoundingBox :=
  if !b.valid_ then b
  else
    let x1 := b.x_ - p.padding_cols_
    let y1 := b.y_ - p.padding_rows_
    { b with
      x_ := x1
      y_ := y1
      x_min_ := max (x1 - b.w_ / 2) 0
      x_max_ := min (x1 + b.w_ / 2) p.image_cols_
      y_min_ := max (y1 - b.h_ / 2) 0
      y_max_ := min (y1 + b.h_ / 2) p.image_rows_ }

/-- `ROSDetector::adjustBoundingBoxes` over all classes. -/
def adjustBoundingBoxes (p : NodeAdjustParams) (bboxes : List (List BoundingBox)) :
    List (List BoundingBox) :=
  bboxes.map (fun cls => cls.map (adjustBox p))

end ROSDetector

/-- The bounding-box rejection configuration struct `BBoxRejectionParameters`
passed to the `Track2D`/`Track3D` constructors. -/
structure BBoxRejectionParameters where
  min_bbox_width : ℚ
  max_bbox_width : ℚ
  min_bbox_height : ℚ
  max_bbox_height : ℚ
deriving DecidableEq, Repr

/-- The rejection members `min/max_bbox_width_`, `min/max_bbox_height_`
of `Track2D` / `Track3D`. -/
structure TrackRejection where
  min_bbox_width_ : ℚ
  max_bbox_width_ : ℚ
  min_bbox_height_ : ℚ
  max_bbox_height_ : ℚ
deriving DecidableEq, Repr

namespace Track2D

/-- The rejection members as assigned by the `Track2D` constructor and
`buildTrack2D` (DetectionUtils.cpp:400-403, 424-427), statement for
statement: note the source assigns `max_bbox_height_ = bbo_p.max_bbox_width`. -/
def mkRejection (bbo_p : BBoxRejectionParameters) : TrackRejection :=
  { min_bbox_width_ := bbo_p.min_bbox_width
    max_bbox_width_ := bbo_p.max_bbox_width
    min_bbox_height_ := bbo_p.min_bbox_height
    max_bbox_height_ := bbo_p.max_bbox_width }

end Track2D

namespace Track3D

/-- The rejection members as assigned by the `Track3D` constructor and
`buildTrack3D` (DetectionUtils.cpp:543-546, 567-570): identical to `Track2D`,
including `max_bbox_height_ = bbo_p.max_bbox_width`. -/
def mkRejection (bbo_p : BBoxRejectionParameters) : TrackRejection :=
  { min_bbox_width_ := bbo_p.min_bbox_width
    max_bbox_width_ := bbo_p.max_bbox_width
    min_bbox_height_ := bbo_p.min_bbox_height
    max_bbox_height_ := bbo_p.max_bbox_width }

end Track3D

/-- The rejection chain shared by `Track2D::cast2states` and
`Track3D::cast2states` (DetectionUtils.cpp:450-464, 592-606): a box is kept
when it is valid and none of the four `continue` guards
(`h_ > max_bbox_height_`, `w_ > max_bbox_width_`, `h_ < min_bbox_height_`,
`w_ < min_bbox_width_`) fires. -/
def acceptBox (t : TrackRejection) (b : BoundingBox) : Bool :=
  b.valid_ && !(b.h_ > t.max_bbox_height_) && !(b.w_ > t.max_bbox_width_)
    && !(b.h_ < t.min_bbox_height_) && !(b.w_ < t.min_bbox_width_)

namespace Track2D

/-- The 6-entry state written for an accepted box by `Track2D::cast2states`
(DetectionUtils.cpp:465-470): `(x, y, 0, 0, w, h)`. -/
def castState (b : BoundingBox) : List ℚ :=
  [b.x_, b.y_, 0, 0, b.w_, b.h_]

/-- The state list produced for one class by `Track2D::cast2states` when the
inner loop counter starts at `j0` (the source declares
`for (unsigned int j; ...)` without an initializer, so the start value is
indeterminate; `j0 = 0` is the intended reading). -/
def classStates (t : TrackRejection) (j0 : Nat) (bs : List BoundingBox) :
    List (List ℚ) :=
  ((bs.drop j0).filter (acceptBox t)).map castState

/-- `Track2D::cast2states` (DetectionUtils.cpp:442-476) with the outer loop
counter starting at `i0` and the inner one at `j0`: the source declares both
with `for (unsigned int i; ...)`, leaving the start values indeterminate. -/
def cast2statesFrom (t : TrackRejection) (i0 j0 : Nat)
    (bboxes : List (List BoundingBox)) : List (List (List ℚ)) :=
  (bboxes.drop i0).map (classStates t j0)

/-- `Track2D::cast2states` under the intended zero-initialized reading of the
two loop counters. -/
def cast2states (t : TrackRejection) (bboxes : List (List BoundingBox)) :
    List (List (List ℚ)) :=
  cast2statesFrom t 0 0 bboxes

/-- The measurement payloads handed to the per-class trackers by
`Track2D::track` (DetectionUtils.cpp:478-494) when the loop counters of
`cast2states` start at `i0` and `j0` (indeterminate in the source): for each
`i < tracker_states.size()`, `Trackers_[i]->update` receives `states[i]`
where `states = cast2states(bboxes)`. -/
def trackPayloadsFrom (t : TrackRejection) (i0 j0 : Nat)
    (bboxes : List (List BoundingBox)) (numTrackerStates : Nat) :
    List (List (List ℚ)) :=
  let states := cast2statesFrom t i0 j0 bboxes
  (List.range numTrackerStates).map (fun i => states[i]!)

/-- The payloads of `Track2D::track` under the intended zero-initialized
reading of the counters of `cast2states`. -/
def trackPayloads (t : TrackRejection) (bboxes : List (List BoundingBox))
    (numTrackerStates : Nat) : List (List (List ℚ)) :=
  trackPayloadsFrom t 0 0 bboxes numTrackerStates

end Track2D

namespace Track3D

/-- Length of the state vector allocated by `Track3D::cast2states`
(DetectionUtils.cpp:587): `std::vector<float> state(6)`. -/
def stateAllocLen : Nat := 6

/-- The indices written into that vector for each accepted `BoundingBox3D`
(DetectionUtils.cpp:607-615): `state[0] .. state[8]`. -/
def writtenIndices : List Nat := [0, 1, 2, 3, 4, 5, 6, 7, 8]

end Track3D

/-- Modelled from the spec: the `BoundingBox3D` data model (its header is not
among the provided sources) — "center (x,y,z), extents (w,d,h), confidence,
class_id, `valid`". -/
structure BoundingBox3D where
  x_ : ℚ
  y_ : ℚ
  z_ : ℚ
  w_ : ℚ
  d_ : ℚ
  h_ : ℚ
  confidence_ : ℚ
  class_id_ : Nat
  valid_ : Bool
deriving DecidableEq, Repr

instance : Inhabited BoundingBox3D :=
  ⟨⟨0, 0, 0, 0, 0, 0, 0, 0, false⟩⟩

/-- Modelled from the spec: the `BoundingBox3D` constructor used at
DetectionUtils.cpp:380, taking center, extents `(w, d, h)`, confidence and
class id in that order and producing a valid box. -/
def mkBoundingBox3D (x y z w d h conf : ℚ) (cid : Nat) : BoundingBox3D :=
  ⟨x, y, z, w, d, h, conf, cid, true⟩

namespace Locate

/-- The single 3D box built for index `(i,j)` by
`Locate::make3DBoundingBoxes` (DetectionUtils.cpp:377-381), given the camera
focals: `new_w = z * w_2 / fx`, `new_h = z * h_2 / fy`, and the constructor is
called as `BoundingBox3D(X, Y, Z, new_w, new_w, new_h, confidence, class_id)`. -/
def make3DBox (fx fy : ℚ) (pt : List ℚ) (bb : BoundingBox) : BoundingBox3D :=
  let new_w := pt[2]! * bb.w_ / fx
  let new_h := pt[2]! * bb.h_ / fy
  mkBoundingBox3D pt[0]! pt[1]! pt[2]! new_w new_w new_h bb.confidence_ bb.class_id_

/-- `Locate::make3DBoundingBoxes` (DetectionUtils.cpp:371-385): for each class
`i` and each localized point `j < points[i].size()`, build the 3D box from
`points[i][j]` and `bboxes[i][j]`. -/
def make3DBoundingBoxes (fx fy : ℚ) (points : List (List (List ℚ)))
    (bboxes : List (List BoundingBox)) : List (List BoundingBox3D) :=
  (List.range points.length).map (fun i =>
    (List.range (points[i]!.length)).map (fun j =>
      make3DBox fx fy (points[i]!)[j]! (bboxes[i]!)[j]!))

end Locate

namespace Track3D

/-- The 9 values written for an accepted box by `Track3D::cast2states`
(DetectionUtils.cpp:607-615): `(x, y, z, 0, 0, 0, w, d, h)`.  The source
stores them through `state[0] .. state[8]` into a vector allocated with only
6 slots (see `stateAllocLen` and `writtenIndices`); the value sequence is
modelled here independently of that allocation bug. -/
def castState (b : BoundingBox3D) : List ℚ :=
  [b.x_, b.y_, b.z_, 0, 0, 0, b.w_, b.d_, b.h_]

/-- The rejection chain of `Track3D::cast2states` applied to a 3D box
(DetectionUtils.cpp:592-606): same guards as the 2D version, on `w_`/`h_`. -/
def acceptBox3D (t : TrackRejection) (b : BoundingBox3D) : Bool :=
  b.valid_ && !(b.h_ > t.max_bbox_height_) && !(b.w_ > t.max_bbox_width_)
    && !(b.h_ < t.min_bbox_height_) && !(b.w_ < t.min_bbox_width_)

/-- The state list produced for one class by `Track3D::cast2states` with the
inner loop counter starting at `j0` (indeterminate in the source, `0`
intended). -/
def classStates3D (t : TrackRejection) (j0 : Nat) (bs : List BoundingBox3D) :
    List (List ℚ) :=
  ((bs.drop j0).filter (acceptBox3D t)).map castState

end Track3D

/-! Helper lemmas and sample inputs. -/

theorem rangeMap_getElemBang {α} [Inhabited α] (f : Nat → α) (n i : Nat) (h : i < n) :
    ((List.range n).map f)[i]! = f i := by
  rw [getElem!_pos ((List.range n).map f) i (by simpa using h)]
  simp

theorem map_getElemBang {α β} [Inhabited α] [Inhabited β] (f : α → β) (l : List α)
    (i : Nat) (h : i < l.length) : (l.map f)[i]! = f l[i]! := by
  rw [getElem!_pos (l.map f) i (by simpa using h), getElem!_pos l i h]
  simp

/-- A permissive rejection configuration: every valid box of extent within
`[0, 1000]` passes. -/
def sampleRejection : TrackRejection := ⟨0, 1000, 0, 1000⟩

/-- A valid sample detection: center `(30, 40)`, width `8`, height `6`. -/
def sampleBox : BoundingBox := ⟨30, 40, 8, 6, 0, 0, 0, 0, 1, 0, true⟩

/-- The same sample detection with `valid_ = false`. -/
def sampleInvalidBox : BoundingBox := ⟨30, 40, 8, 6, 0, 0, 0, 0, 1, 0, false⟩

/-- A valid detection of height `80`, taller than `50` but not wider than
`100`. -/
def tallBox : BoundingBox := ⟨10, 10, 10, 80, 0, 0, 0, 0, 1, 0, true⟩

/-- A valid detection centered at `(320, 0)`: inside the `640×640` padded
square, but in the top padding band of a letterboxed `480×640` image. -/
def padBandBox : BoundingBox := ⟨320, 0, 10, 10, 0, 0, 0, 0, 1, 0, true⟩

/-- A valid detection centered at `(320, 240)`: inside the content region of
the letterboxed `480×640` image. -/
def centerBox : BoundingBox := ⟨320, 240, 10, 10, 0, 0, 0, 0, 1, 0, true⟩

/-! Claim theorems. -/

/-- C1: the claim states that the `Track2D`/`Track3D` constructors store the
configured `max_bbox_height` into `max_bbox_height_`, so that `cast2states`
rejects heights against the height bound.  The source instead assigns
`bbo_p.max_bbox_width` (DetectionUtils.cpp:403, 427, 546, 570): with
`max_bbox_width = 100` and `max_bbox_height = 50`, a detection of height 80
is accepted by the rejection chain although the claim requires it rejected. -/
theorem track_max_bbox_height_stores_width :
    (Track2D.mkRejection ⟨0, 100, 0, 50⟩).max_bbox_height_ = (100 : ℚ) ∧
    ¬ (Track2D.mkRejection ⟨0, 100, 0, 50⟩).max_bbox_height_ = (50 : ℚ) ∧
    (Track3D.mkRejection ⟨0, 100, 0, 50⟩).max_bbox_height_ = (100 : ℚ) ∧
    ¬ (Track3D.mkRejection ⟨0, 100, 0, 50⟩).max_bbox_height_ = (50 : ℚ) ∧
    acceptBox (Track2D.mkRejection ⟨0, 100, 0, 50⟩) tallBox = true ∧
    tallBox.h_ > (50 : ℚ) := by
  decide

/-- C2: the claim states `Track2D::cast2states` iterates the classes starting
from index 0 with both loop counters zero-initialized, producing one state
list per class, each accepted box cast to `(x, y, 0, 0, w, h)`.  Under the
zero-initialized reading this is what the body computes (first conjunct), but
the source declares `for (unsigned int i; ...)` without an initializer
(DetectionUtils.cpp:447, 449), so the start value is indeterminate: starting
at 1 no longer yields one state list per class (second conjunct). -/
theorem cast2states_counter_evidence :
    Track2D.cast2statesFrom sampleRejection 0 0 [[sampleBox], []]
        = [[[30, 40, 0, 0, 8, 6]], []] ∧
    ¬ (Track2D.cast2statesFrom sampleRejection 1 0 [[sampleBox], []]).length = 2 := by
  constructor
  · decide
  · decide

/-- C3: the claim states the state vector in `Track3D::cast2states` is
allocated with the 9 entries required for `(x, y, z, vx, vy, vz, w, d, h)`.
The source allocates `std::vector<float> state(6)` (DetectionUtils.cpp:587)
yet writes `state[0] .. state[8]` (DetectionUtils.cpp:607-615): the written
indices are not all within the allocated bounds. -/
theorem track3d_state_written_past_alloc :
    ¬ ∀ k ∈ Track3D.writtenIndices, k < Track3D.stateAllocLen := by
  decide

/-- C8: the claim states `generateDetectionImage` reads exactly the elements
`bboxes[i][j]` with `j < bboxes[i].size()`.  The source's inner loop runs
`j < bboxes[i].size()+1` (DetectionUtils.cpp:269, and the same loop at
detect_locate_and_in_image_tracking_node.cpp:312), so on a class with one box
it also reads the out-of-bounds pair `(0, 1)`. -/
theorem generateDetectionImage_reads_past_end :
    ∃ ij ∈ Detect.generateDetectionImageReads [1],
      ¬ ij.2 < ([1] : List Nat)[ij.1]! := by
  decide

/-- C4: for every valid incoming bounding box, `Detect::adjustBoundingBoxes`
applies the letterbox inverse: the center becomes
`((x − padding_cols)/r, (y − padding_rows)/r)`, the extents become `w/r`,
`h/r`, and the corners are the new center ± half the new extent. -/
theorem adjustBox_letterbox_inverse (p : Detect.AdjustParams) (b : BoundingBox)
    (hv : b.valid_ = true) :
    (Detect.adjustBox p b).x_ = (b.x_ - p.padding_cols_) / p.r_ ∧
    (Detect.adjustBox p b).y_ = (b.y_ - p.padding_rows_) / p.r_ ∧
    (Detect.adjustBox p b).w_ = b.w_ / p.r_ ∧
    (Detect.adjustBox p b).h_ = b.h_ / p.r_ ∧
    (Detect.adjustBox p b).x_min_
        = (b.x_ - p.padding_cols_) / p.r_ - (b.w_ / p.r_) / 2 ∧
    (Detect.adjustBox p b).x_max_
        = (b.x_ - p.padding_cols_) / p.r_ + (b.w_ / p.r_) / 2 ∧
    (Detect.adjustBox p b).y_min_
        = (b.y_ - p.padding_rows_) / p.r_ - (b.h_ / p.r_) / 2 ∧
    (Detect.adjustBox p b).y_max_
        = (b.y_ - p.padding_rows_) / p.r_ + (b.h_ / p.r_) / 2 := by
  simp only [Detect.adjustBox, hv, Bool.not_true, Bool.false_eq_true, if_false]
  exact ⟨trivial, trivial, trivial, trivial, by ring, by ring, by ring, by ring⟩

/-- C4 witness: the inverse-mapping equations evaluated on the sample box with
`r = 2`, paddings `(10, 20)`. -/
theorem adjustBox_letterbox_inverse_witness :
    (Detect.adjustBox ⟨2, 10, 20⟩ sampleBox).x_ = (sampleBox.x_ - 20) / 2 ∧
    (Detect.adjustBox ⟨2, 10, 20⟩ sampleBox).w_ = sampleBox.w_ / 2 := by
  exact ⟨(adjustBox_letterbox_inverse ⟨2, 10, 20⟩ sampleBox rfl).1,
    (adjustBox_letterbox_inverse ⟨2, 10, 20⟩ sampleBox rfl).2.2.1⟩

/-- C5 counterexample: the claim quantifies over every box center in the
padded square `[0, image_size)²`.  For a `480×640` image letterboxed into a
`640×640` square (`r = 1`, `padding_rows = 80`), the box centered at
`(320, 0)` lies in the padded square, yet the inverse mapping sends its
center to `y = −80 ∉ [0, 480)`. -/
theorem letterbox_roundtrip_padding_band_cex :
    (0 ≤ padBandBox.x_ ∧ padBandBox.x_ < 640 ∧
      0 ≤ padBandBox.y_ ∧ padBandBox.y_ < 640) ∧
    padBandBox.valid_ = true ∧
    ¬ (0 ≤ (Detect.adjustBox (Detect.padAdjust 640 480 640) padBandBox).y_ ∧
        (Detect.adjustBox (Detect.padAdjust 640 480 640) padBandBox).y_ < 480) := by
  norm_num [Detect.padAdjust, Detect.padImage, Detect.adjustBox, padBandBox, max_def]

/-- C5 (amended): for any valid box whose center lies within the content
region of the padded square (the letterboxed image area
`[padding_cols, padding_cols + cols·r) × [padding_rows, padding_rows + rows·r)`,
rather than the whole padded square), the inverse mapping of
`adjustBoundingBoxes` yields a center in `[0, image_cols) × [0, image_rows)`. -/
theorem letterbox_content_region_roundtrip (image_size irows icols : ℚ)
    (b : BoundingBox) (hs : 0 < image_size) (hrows : 0 < irows)
    (hcols : 0 < icols) (hv : b.valid_ = true)
    (hx1 : (Detect.padImage image_size irows icols).padding_cols_ ≤ b.x_)
    (hx2 : b.x_ < (Detect.padImage image_size irows icols).padding_cols_
        + (Detect.padImage image_size irows icols).tmp_cols)
    (hy1 : (Detect.padImage image_size irows icols).padding_rows_ ≤ b.y_)
    (hy2 : b.y_ < (Detect.padImage image_size irows icols).padding_rows_
        + (Detect.padImage image_size irows icols).tmp_rows) :
    (0 ≤ (Detect.adjustBox (Detect.padAdjust image_size irows icols) b).x_ ∧
      (Detect.adjustBox (Detect.padAdjust image_size irows icols) b).x_ < icols) ∧
    (0 ≤ (Detect.adjustBox (Detect.padAdjust image_size irows icols) b).y_ ∧
      (Detect.adjustBox (Detect.padAdjust image_size irows icols) b).y_ < irows) := by
  have hm : (0 : ℚ) < max irows icols := lt_max_iff.mpr (Or.inl hrows)
  have hr : (0 : ℚ) < image_size / max irows icols := div_pos hs hm
  simp only [Detect.padImage] at hx1 hx2 hy1 hy2
  simp only [Detect.padAdjust, Detect.padImage, Detect.adjustBox, hv, Bool.not_true,
    Bool.false_eq_true, if_false]
  refine ⟨⟨div_nonneg (by linarith) hr.le, (div_lt_iff₀ hr).mpr (by linarith)⟩,
    ⟨div_nonneg (by linarith) hr.le, (div_lt_iff₀ hr).mpr (by linarith)⟩⟩

/-- C5 witness: the amended round-trip applied to the box centered at
`(320, 240)` of the letterboxed `480×640` image. -/
theorem letterbox_content_region_roundtrip_witness :
    (0 ≤ (Detect.adjustBox (Detect.padAdjust 640 480 640) centerBox).x_ ∧
      (Detect.adjustBox (Detect.padAdjust 640 480 640) centerBox).x_ < 640) ∧
    (0 ≤ (Detect.adjustBox (Detect.padAdjust 640 480 640) centerBox).y_ ∧
      (Detect.adjustBox (Detect.padAdjust 640 480 640) centerBox).y_ < 480) := by
  exact letterbox_content_region_roundtrip 640 480 640 centerBox (by norm_num)
    (by norm_num) (by norm_num) rfl
    (by norm_num [Detect.padImage, max_def, centerBox])
    (by norm_num [Detect.padImage, max_def, centerBox])
    (by norm_num [Detect.padImage, max_def, centerBox])
    (by norm_num [Detect.padImage, max_def, centerBox])

/-- C6 counterexample: the claim asserts the `valid ⇒ w>0 ∧ h>0 ∧
x_min ≤ x_max ∧ y_min ≤ y_max` invariant also for the node version of
`adjustBoundingBoxes`.  With `padding_rows = 80` (the letterboxed `480×640`
setup) and the valid box centered at `(320, 0)` with `w = h = 10 > 0`, the
node version clamps `y_min` to `0` and `y_max` to `−75`, so
`y_min > y_max`. -/
theorem node_adjust_clamp_cex :
    padBandBox.valid_ = true ∧ 0 < padBandBox.w_ ∧ 0 < padBandBox.h_ ∧
    ¬ ((ROSDetector.adjustBox ⟨80, 0, 480, 640⟩ padBandBox).y_min_
        ≤ (ROSDetector.adjustBox ⟨80, 0, 480, 640⟩ padBandBox).y_max_) := by
  norm_num [ROSDetector.adjustBox, padBandBox, max_def, min_def]

/-- C6 (amended): after adjustment, a valid box with positive extent
satisfies `w>0 ∧ h>0 ∧ x_min ≤ x_max ∧ y_min ≤ y_max` — unconditionally in
the library version (given `r > 0`), and in the clamping node version
provided the adjusted center lies within the image rectangle
`[0, image_cols] × [0, image_rows]` (a center in the padding band can make
the clamped corners cross, as the counterexample shows). -/
theorem adjust_bbox_invariant :
    (∀ (p : Detect.AdjustParams) (b : BoundingBox), 0 < p.r_ →
      b.valid_ = true → 0 < b.w_ → 0 < b.h_ →
      0 < (Detect.adjustBox p b).w_ ∧ 0 < (Detect.adjustBox p b).h_ ∧
      (Detect.adjustBox p b).x_min_ ≤ (Detect.adjustBox p b).x_max_ ∧
      (Detect.adjustBox p b).y_min_ ≤ (Detect.adjustBox p b).y_max_) ∧
    (∀ (q : ROSDetector.NodeAdjustParams) (b : BoundingBox),
      b.valid_ = true → 0 < b.w_ → 0 < b.h_ →
      0 ≤ b.x_ - q.padding_cols_ → b.x_ - q.padding_cols_ ≤ q.image_cols_ →
      0 ≤ b.y_ - q.padding_rows_ → b.y_ - q.padding_rows_ ≤ q.image_rows_ →
      0 < (ROSDetector.adjustBox q b).w_ ∧ 0 < (ROSDetector.adjustBox q b).h_ ∧
      (ROSDetector.adjustBox q b).x_min_ ≤ (ROSDetector.adjustBox q b).x_max_ ∧
      (ROSDetector.adjustBox q b).y_min_ ≤ (ROSDetector.adjustBox q b).y_max_) := by
  constructor
  · intro p b hr hv hw hh
    simp only [Detect.adjustBox, hv, Bool.not_true, Bool.false_eq_true, if_false]
    have h2w : (0 : ℚ) ≤ b.w_ / (2 * p.r_) := (div_pos hw (by positivity)).le
    have h2h : (0 : ℚ) ≤ b.h_ / (2 * p.r_) := (div_pos hh (by positivity)).le
    exact ⟨div_pos hw hr, div_pos hh hr, by linarith, by linarith⟩
  · intro q b hv hw hh hx0 hx1 hy0 hy1
    simp only [ROSDetector.adjustBox, hv, Bool.not_true, Bool.false_eq_true, if_false]
    refine ⟨hw, hh, ?_, ?_⟩
    · exact le_trans (max_le (by linarith) hx0) (le_min (by linarith) hx1)
    · exact le_trans (max_le (by linarith) hy0) (le_min (by linarith) hy1)

/-- C6 witness: both parts evaluated on the sample box, with `r = 2`,
paddings `(10, 20)` for the library version and the `480×640` node setup for
the clamping version. -/
theorem adjust_bbox_invariant_witness :
    ((Detect.adjustBox ⟨2, 10, 20⟩ sampleBox).x_min_
        ≤ (Detect.adjustBox ⟨2, 10, 20⟩ sampleBox).x_max_) ∧
    ((ROSDetector.adjustBox ⟨80, 0, 480, 640⟩ centerBox).y_min_
        ≤ (ROSDetector.adjustBox ⟨80, 0, 480, 640⟩ centerBox).y_max_) := by
  refine ⟨(adjust_bbox_invariant.1 ⟨2, 10, 20⟩ sampleBox (by norm_num) rfl
    (by norm_num [sampleBox]) (by norm_num [sampleBox])).2.2.1,
    (adjust_bbox_invariant.2 ⟨80, 0, 480, 640⟩ centerBox rfl
    (by norm_num [centerBox]) (by norm_num [centerBox]) (by norm_num [centerBox])
    (by norm_num [centerBox]) (by norm_num [centerBox])
    (by norm_num [centerBox])).2.2.2⟩

/-- C7: every 3D box produced by `Locate::make3DBoundingBoxes` for a
localized box `(i, j)` has width `z·w₂/fx`, height `z·h₂/fy`, depth extent
equal to its width, center the estimated point `(X, Y, Z) = points[i][j]`,
and confidence and class id copied from the 2D box. -/
theorem make3DBoundingBoxes_fields (fx fy : ℚ) (points : List (List (List ℚ)))
    (bboxes : List (List BoundingBox)) (i j : Nat)
    (hi : i < points.length) (hj : j < (points[i]!).length) :
    ((Locate.make3DBoundingBoxes fx fy points bboxes)[i]!)[j]!
        = Locate.make3DBox fx fy ((points[i]!)[j]!) ((bboxes[i]!)[j]!) ∧
    (Locate.make3DBox fx fy ((points[i]!)[j]!) ((bboxes[i]!)[j]!)).w_
        = ((points[i]!)[j]!)[2]! * ((bboxes[i]!)[j]!).w_ / fx ∧
    (Locate.make3DBox fx fy ((points[i]!)[j]!) ((bboxes[i]!)[j]!)).d_
        = ((points[i]!)[j]!)[2]! * ((bboxes[i]!)[j]!).w_ / fx ∧
    (Locate.make3DBox fx fy ((points[i]!)[j]!) ((bboxes[i]!)[j]!)).h_
        = ((points[i]!)[j]!)[2]! * ((bboxes[i]!)[j]!).h_ / fy ∧
    (Locate.make3DBox fx fy ((points[i]!)[j]!) ((bboxes[i]!)[j]!)).x_
        = ((points[i]!)[j]!)[0]! ∧
    (Locate.make3DBox fx fy ((points[i]!)[j]!) ((bboxes[i]!)[j]!)).y_
        = ((points[i]!)[j]!)[1]! ∧
    (Locate.make3DBox fx fy ((points[i]!)[j]!) ((bboxes[i]!)[j]!)).z_
        = ((points[i]!)[j]!)[2]! ∧
    (Locate.make3DBox fx fy ((points[i]!)[j]!) ((bboxes[i]!)[j]!)).confidence_
        = ((bboxes[i]!)[j]!).confidence_ ∧
    (Locate.make3DBox fx fy ((points[i]!)[j]!) ((bboxes[i]!)[j]!)).class_id_
        = ((bboxes[i]!)[j]!).class_id_ := by
  refine ⟨?_, rfl, rfl, rfl, rfl, rfl, rfl, rfl, rfl⟩
  rw [Locate.make3DBoundingBoxes, rangeMap_getElemBang _ points.length i hi,
    rangeMap_getElemBang _ (points[i]!).length j hj]

/-- C7 witness: the 3D-box synthesis evaluated on one localized box at
`(1, 2, 3)` with `fx = fy = 500`. -/
theorem make3DBoundingBoxes_fields_witness :
    ((Locate.make3DBoundingBoxes 500 500 [[[1, 2, 3]]] [[sampleBox]])[0]!)[0]!
        = Locate.make3DBox 500 500
            ((([[[1, 2, 3]]] : List (List (List ℚ)))[0]!)[0]!)
            ((([[sampleBox]] : List (List BoundingBox))[0]!)[0]!) := by
  exact (make3DBoundingBoxes_fields 500 500 [[[1, 2, 3]]] [[sampleBox]] 0 0
    (by decide) (by decide)).1

/-- C9: the claim asserts per-class isolation: `Trackers_[i]` is updated with
exactly class `i`'s detection states and no other class's.  `Track2D::track`
forwards `states[i]` from `cast2states`, whose outer loop counter is
uninitialized (DetectionUtils.cpp:447), so the code does not guarantee the
property: on `[[], [box]]` (class 0 empty, class 1 one detection) the
intended zero start gives tracker 0 the empty class-0 list (first conjunct),
but with the admissible start 1 tracker 0 receives class 1's detection state
(second conjunct), which is not class 0's state list (third conjunct). -/
theorem track_cross_class_payload :
    Track2D.trackPayloadsFrom sampleRejection 0 0 [[], [sampleBox]] 2
        = [[], [[30, 40, 0, 0, 8, 6]]] ∧
    (Track2D.trackPayloadsFrom sampleRejection 1 0 [[], [sampleBox]] 2)[0]!
        = [[30, 40, 0, 0, 8, 6]] ∧
    ¬ (Track2D.trackPayloadsFrom sampleRejection 1 0 [[], [sampleBox]] 2)[0]!
        = Track2D.classStates sampleRejection 0 ([] : List BoundingBox) := by
  refine ⟨?_, ?_, ?_⟩ <;> decide

/-- C10: invalid boxes are frame-invariant: both versions of
`adjustBoundingBoxes` leave a box with `valid_ = false` entirely unchanged
(the loops `continue` past it), and both `cast2states` bodies exclude invalid
boxes — the produced state lists are unchanged if the invalid boxes are
removed from the input, so only valid boxes are ever mutated or emitted as
tracker measurements. -/
theorem invalid_boxes_untouched_and_excluded :
    (∀ (p : Detect.AdjustParams) (b : BoundingBox), b.valid_ = false →
        Detect.adjustBox p b = b) ∧
    (∀ (q : ROSDetector.NodeAdjustParams) (b : BoundingBox), b.valid_ = false →
        ROSDetector.adjustBox q b = b) ∧
    (∀ (t : TrackRejection) (bs : List BoundingBox),
        Track2D.classStates t 0 bs
          = Track2D.classStates t 0 (bs.filter (fun b => b.valid_))) ∧
    (∀ (t : TrackRejection) (bs : List BoundingBox3D),
        Track3D.classStates3D t 0 bs
          = Track3D.classStates3D t 0 (bs.filter (fun b => b.valid_))) := by
  refine ⟨?_, ?_, ?_, ?_⟩
  · intro p b hb
    simp [Detect.adjustBox, hb]
  · intro q b hb
    simp [ROSDetector.adjustBox, hb]
  · intro t bs
    simp only [Track2D.classStates, List.drop_zero]
    rw [List.filter_filter]
    congr 1
    exact (List.filter_congr
      (fun b _ => by cases hb : b.valid_ <;> simp [acceptBox, hb])).symm
  · intro t bs
    simp only [Track3D.classStates3D, List.drop_zero]
    rw [List.filter_filter]
    congr 1
    exact (List.filter_congr
      (fun b _ => by cases hb : b.valid_ <;> simp [Track3D.acceptBox3D, hb])).symm

/-- C10 witness: the invalid sample box is left unchanged by the library
adjustment and contributes nothing to the 2D state list. -/
theorem invalid_boxes_untouched_and_excluded_witness :
    Detect.adjustBox ⟨1, 0, 0⟩ sampleInvalidBox = sampleInvalidBox ∧
    Track2D.classStates sampleRejection 0 [sampleInvalidBox]
      = Track2D.classStates sampleRejection 0
          ([sampleInvalidBox].filter (fun b => b.valid_)) := by
  exact ⟨invalid_boxes_untouched_and_excluded.1 ⟨1, 0, 0⟩ sampleInvalidBox rfl,
    invalid_boxes_untouched_and_excluded.2.2.1 sampleRejection [sampleInvalidBox]⟩
